import Mathlib

/-!
Shallow embedding of dqn_zoo parts.py (components for DQN): timesteps,
episode/step-rate trackers, statistics aggregation, the interaction loop
driver, the linear schedule, the epsilon-greedy actor and the CSV writer.
Python floats are modelled as rationals, NaN as the `none` of `Option ℚ`,
and raised exceptions as `Except String`.
-/

namespace DqnZoo

/-- Step type of a dm_env timestep (dm_env.StepType). -/
inductive StepType
  | FIRST
  | MID
  | LAST
deriving DecidableEq, Repr

/-- dm_env TimeStep record: step type, reward (absent on FIRST), discount
and an observation of type Obs. -/
structure TimeStep (Obs : Type) where
  step_type : StepType
  reward : Option ℚ
  discount : Option ℚ
  observation : Obs
deriving DecidableEq, Repr

/-- dm_env TimeStep.first(): whether the step type is FIRST. -/
def TimeStep.first {Obs : Type} (ts : TimeStep Obs) : Bool :=
  match ts.step_type with
  | StepType.FIRST => true
  | _ => false

/-- dm_env TimeStep.last(): whether the step type is LAST. -/
def TimeStep.last {Obs : Type} (ts : TimeStep Obs) : Bool :=
  match ts.step_type with
  | StepType.LAST => true
  | _ => false

/-- Python sum() over a list that may contain None: raises a TypeError if
some element is None, otherwise adds the elements to 0. -/
def pySum : List (Option ℚ) → Except String ℚ
  | [] => Except.ok 0
  | none :: _ => Except.error "TypeError: unsupported operand type(s) for +"
  | some r :: rest => (pySum rest).map (fun s => r + s)

/-- Whether an Except value is an error. -/
def isError {ε α : Type} : Except ε α → Bool
  | Except.error _ => true
  | Except.ok _ => false

/-- State of EpisodeTracker: cumulative step counts, completed episode
returns, and the in-progress episode reward list and step count. The
reward list holds Option values because Python appends timestep.reward,
which is None on a malformed stream. -/
structure EpisodeTrackerState where
  num_steps_since_reset : Nat
  num_steps_over_episodes : Nat
  episode_returns : List ℚ
  current_episode_rewards : List (Option ℚ)
  current_episode_step : Nat
deriving DecidableEq, Repr

/-- EpisodeTracker.reset(): zero all counters, clear all lists. -/
def EpisodeTracker.reset : EpisodeTrackerState :=
  { num_steps_since_reset := 0
    num_steps_over_episodes := 0
    episode_returns := []
    current_episode_rewards := []
    current_episode_step := 0 }

/-- EpisodeTracker.step(timestep): on FIRST, check the in-progress state is
clean (ValueError otherwise); otherwise append the reward. Increment both
step counters. On LAST, fold the in-progress episode into the completed
statistics. -/
def EpisodeTracker.step {Obs : Type} (ts : TimeStep Obs)
    (s : EpisodeTrackerState) : Except String EpisodeTrackerState := do
  let s ←
    if ts.first then
      if s.current_episode_rewards ≠ [] then
        Except.error "Current episode reward list should be empty."
      else if s.current_episode_step ≠ 0 then
        Except.error "Current episode step should be zero."
      else
        Except.ok s
    else
      Except.ok { s with
        current_episode_rewards := s.current_episode_rewards ++ [ts.reward] }
  let s := { s with
    num_steps_since_reset := s.num_steps_since_reset + 1
    current_episode_step := s.current_episode_step + 1 }
  if ts.last then
    let ret ← pySum s.current_episode_rewards
    Except.ok { s with
      episode_returns := s.episode_returns ++ [ret]
      current_episode_rewards := []
      num_steps_over_episodes := s.num_steps_over_episodes + s.current_episode_step
      current_episode_step := 0 }
  else
    Except.ok s

/-- Feeding of a whole list of timesteps to EpisodeTracker.step, in order,
propagating the first raised error. -/
def EpisodeTracker.stepAll {Obs : Type} (l : List (TimeStep Obs))
    (s : EpisodeTrackerState) : Except String EpisodeTrackerState :=
  l.foldlM (fun s ts => EpisodeTracker.step ts s) s

/-- Snapshot returned by EpisodeTracker.get(), with `none` standing for the
NaN sentinel of the Python code. -/
structure EpisodeStats where
  mean_episode_return : Option ℚ
  current_episode_return : Option ℚ
  episode_return : Option ℚ
  num_episodes : Nat
  num_steps_over_episodes : Nat
  current_episode_step : Nat
  num_steps_since_reset : Nat
deriving DecidableEq, Repr

/-- EpisodeTracker.get(): mean return over completed episodes (NaN if none),
current in-progress return (NaN if additionally no steps were taken), and
the headline episode_return picking the mean when at least one episode has
completed and the current return otherwise. -/
def EpisodeTracker.get (s : EpisodeTrackerState) : Except String EpisodeStats :=
  if s.episode_returns ≠ [] then do
    let mean_episode_return := s.episode_returns.sum / (s.episode_returns.length : ℚ)
    let current_episode_return ← pySum s.current_episode_rewards
    Except.ok
      { mean_episode_return := some mean_episode_return
        current_episode_return := some current_episode_return
        episode_return := some mean_episode_return
        num_episodes := s.episode_returns.length
        num_steps_over_episodes := s.num_steps_over_episodes
        current_episode_step := s.current_episode_step
        num_steps_since_reset := s.num_steps_since_reset }
  else
    if s.num_steps_since_reset > 0 then do
      let current_episode_return ← pySum s.current_episode_rewards
      Except.ok
        { mean_episode_return := none
          current_episode_return := some current_episode_return
          episode_return := some current_episode_return
          num_episodes := s.episode_returns.length
          num_steps_over_episodes := s.num_steps_over_episodes
          current_episode_step := s.current_episode_step
          num_steps_since_reset := s.num_steps_since_reset }
    else
      Except.ok
        { mean_episode_return := none
          current_episode_return := none
          episode_return := none
          num_episodes := s.episode_returns.length
          num_steps_over_episodes := s.num_steps_over_episodes
          current_episode_step := s.current_episode_step
          num_steps_since_reset := s.num_steps_since_reset }

/-- State of StepRateTracker: step count since reset and the wall-clock
start instant sampled at reset. Wall-clock time is modelled as an explicit
rational parameter threaded to reset and get. -/
structure StepRateTrackerState where
  num_steps_since_reset : Nat
  start : ℚ
deriving DecidableEq, Repr

/-- StepRateTracker.reset(): zero the count and record the current time. -/
def StepRateTracker.reset (now : ℚ) : StepRateTrackerState :=
  { num_steps_since_reset := 0, start := now }

/-- StepRateTracker.step(timestep): increment the count, the timestep is
discarded. -/
def StepRateTracker.step {Obs : Type} (ts : TimeStep Obs)
    (s : StepRateTrackerState) : StepRateTrackerState :=
  { s with num_steps_since_reset := s.num_steps_since_reset + 1 }

/-- Snapshot returned by StepRateTracker.get(), with `none` standing for the
NaN sentinel when no steps were taken. -/
structure StepRateStats where
  step_rate : Option ℚ
  num_steps : Nat
  duration : ℚ
deriving DecidableEq, Repr

/-- StepRateTracker.get(now): duration since the recorded start and the step
rate over that duration, NaN when no steps were taken. -/
def StepRateTracker.get (now : ℚ) (s : StepRateTrackerState) : StepRateStats :=
  let duration := now - s.start
  { step_rate :=
      if s.num_steps_since_reset > 0 then
        some ((s.num_steps_since_reset : ℚ) / duration)
      else
        none
    num_steps := s.num_steps_since_reset
    duration := duration }

/-- Feeding of a whole list of timesteps to StepRateTracker.step, in order. -/
def StepRateTracker.stepAll {Obs : Type} (l : List (TimeStep Obs))
    (s : StepRateTrackerState) : StepRateTrackerState :=
  l.foldl (fun s ts => StepRateTracker.step ts s) s

/-- Dictionary literal built by EpisodeTracker.get(), in insertion order,
with every value coerced to an Option ℚ (`none` is NaN). -/
def episodeStatsDict (st : EpisodeStats) : List (String × Option ℚ) :=
  [("mean_episode_return", st.mean_episode_return),
   ("current_episode_return", st.current_episode_return),
   ("episode_return", st.episode_return),
   ("num_episodes", some (st.num_episodes : ℚ)),
   ("num_steps_over_episodes", some (st.num_steps_over_episodes : ℚ)),
   ("current_episode_step", some (st.current_episode_step : ℚ)),
   ("num_steps_since_reset", some (st.num_steps_since_reset : ℚ))]

/-- Dictionary literal built by StepRateTracker.get(), in insertion order. -/
def stepRateStatsDict (st : StepRateStats) : List (String × Option ℚ) :=
  [("step_rate", st.step_rate),
   ("num_steps", some (st.num_steps : ℚ)),
   ("duration", some st.duration)]

/-- Python dict union as in a merge literal of two dicts: the keys of the
first dict in order with the second dict's value overriding on a shared
key, then the keys of the second dict not present in the first. -/
def pyDictMerge (a b : List (String × Option ℚ)) : List (String × Option ℚ) :=
  a.map (fun kv => (kv.1, (b.lookup kv.1).getD kv.2)) ++
    b.filter (fun kv => (a.lookup kv.1).isNone)

/-- Loop body of generate_statistics: skip absent timesteps, feed each
present timestep first to the step-rate tracker and then to the episode
tracker, propagating the episode tracker's errors. -/
def genLoop {Obs : Type} :
    List (Option (TimeStep Obs) × Option ℤ) → StepRateTrackerState →
      EpisodeTrackerState →
      Except String (StepRateTrackerState × EpisodeTrackerState)
  | [], srt, et => Except.ok (srt, et)
  | (none, _) :: rest, srt, et => genLoop rest srt et
  | (some ts, _) :: rest, srt, et => do
      let srt := StepRateTracker.step ts srt
      let et ← EpisodeTracker.step ts et
      genLoop rest srt et

/-- generate_statistics: construct and reset both trackers, feed them the
sequence, and merge the snapshot dictionaries of both, the step-rate
entries being spliced second. The wall-clock instants of the reset and of
the final get are the explicit parameters t0 and t1. -/
def generate_statistics {Obs : Type}
    (pairs : List (Option (TimeStep Obs) × Option ℤ)) (t0 t1 : ℚ) :
    Except String (List (String × Option ℚ)) := do
  let (srt, et) ← genLoop pairs (StepRateTracker.reset t0) EpisodeTracker.reset
  let episode_stats ← EpisodeTracker.get et
  let step_rate_stats := StepRateTracker.get t1 srt
  Except.ok (pyDictMerge (episodeStatsDict episode_stats)
    (stepRateStatsDict step_rate_stats))

/-- LinearSchedule after construction: begin/end values, begin step, and the
stored decay step count. -/
structure LinearSchedule where
  begin_value : ℚ
  end_value : ℚ
  begin_t : ℤ
  decay_steps : ℤ
deriving DecidableEq, Repr

/-- LinearSchedule.__init__: raise a ValueError unless exactly one of end_t
and decay_steps is provided; store decay_steps if given, else
end_t - begin_t. The getD default of the none-branch is never reached, as
the guard ensures decay_steps is present when end_t is absent. -/
def LinearSchedule.init (begin_value end_value : ℚ) (begin_t : ℤ)
    (end_t : Option ℤ) (decay_steps : Option ℤ) : Except String LinearSchedule :=
  if end_t.isNone == decay_steps.isNone then
    Except.error "Exactly one of end_t, decay_steps must be provided."
  else
    Except.ok
      { begin_value := begin_value
        end_value := end_value
        begin_t := begin_t
        decay_steps :=
          match end_t with
          | none => decay_steps.getD 0
          | some e => e - begin_t }

/-- LinearSchedule.__call__: linear transition from the begin to the end
value, with the elapsed time clamped to [0, decay_steps]. -/
def LinearSchedule.value (sched : LinearSchedule) (t : ℤ) : ℚ :=
  let frac : ℚ :=
    ((min (max (t - sched.begin_t) 0) sched.decay_steps : ℤ) : ℚ) /
      (sched.decay_steps : ℚ)
  (1 - frac) * sched.begin_value + frac * sched.end_value

/-- Sample schedule decaying from 1 to 0 over steps 0 to 10. -/
def sched10 : LinearSchedule := LinearSchedule.mk 1 0 0 10

/-- Statement that value(t) follows the clamped linear interpolation formula
and is constant outside [begin_t, begin_t + decay_steps]. -/
def ValueSpecAt (sched : LinearSchedule) (t : ℤ) : Prop :=
  sched.value t =
      (1 - ((min (max (t - sched.begin_t) 0) sched.decay_steps : ℤ) : ℚ) /
          (sched.decay_steps : ℚ)) * sched.begin_value +
        ((min (max (t - sched.begin_t) 0) sched.decay_steps : ℤ) : ℚ) /
          (sched.decay_steps : ℚ) * sched.end_value ∧
  (t ≤ sched.begin_t → sched.value t = sched.begin_value) ∧
  (sched.begin_t + sched.decay_steps ≤ t → sched.value t = sched.end_value)

/-- Sample FIRST timestep with no reward and trivial observation. -/
def tsFIRST : TimeStep Unit := TimeStep.mk StepType.FIRST none (some 1) ()

/-- Sample MID timestep carrying reward r. -/
def tsMID (r : ℚ) : TimeStep Unit := TimeStep.mk StepType.MID (some r) (some 1) ()

/-- Sample LAST timestep carrying reward r. -/
def tsLAST (r : ℚ) : TimeStep Unit := TimeStep.mk StepType.LAST (some r) (some 0) ()

/-- Stats of the freshly reset tracker: every return is NaN and every count 0. -/
def resetStats : EpisodeStats := EpisodeStats.mk none none none 0 0 0 0

/-- Mutable state of an EpsilonGreedyActor: the preprocessing pipeline's
internal state, the current random key, the last selected action (absent
until one is selected) and the externally set network parameters. -/
structure ActorState (PState Key Params : Type) where
  pstate : PState
  rng_key : Key
  action : Option ℤ
  network_params : Params

/-- External capabilities consumed by EpsilonGreedyActor: the stateful
preprocessing pipeline (which may suppress its output), its reset, the
three-way key split, the network application returning the q-values of the
singleton batch, and the rlax epsilon-greedy sampling primitive. -/
structure ActorFns (PState Key Params Obs QVals : Type) where
  preprocessor : PState → TimeStep Obs → PState × Option (TimeStep Obs)
  preprocessorReset : PState → PState
  split3 : Key → Key × Key × Key
  networkApply : Params → Key → Obs → QVals
  egreedySample : Key → QVals → ℚ → ℤ

/-- EpsilonGreedyActor.step(timestep): preprocess the timestep; if the
pipeline yields no output return the stored action; otherwise split the
key, apply the network, sample epsilon-greedily, store and return the
action. -/
def EpsilonGreedyActor.step {PState Key Params Obs QVals : Type}
    (fns : ActorFns PState Key Params Obs QVals) (exploration_epsilon : ℚ)
    (s : ActorState PState Key Params) (ts : TimeStep Obs) :
    ActorState PState Key Params × Option ℤ :=
  let (ps, tso) := fns.preprocessor s.pstate ts
  match tso with
  | none => ({ s with pstate := ps }, s.action)
  | some ts2 =>
    let (rng_key, apply_key, policy_key) := fns.split3 s.rng_key
    let q_t := fns.networkApply s.network_params apply_key ts2.observation
    let a_t := fns.egreedySample policy_key q_t exploration_epsilon
    ({ s with pstate := ps, rng_key := rng_key, action := some a_t }, some a_t)

/-- EpsilonGreedyActor.reset(): reset the preprocessing pipeline and clear
the stored action; the random key and network parameters are untouched. -/
def EpsilonGreedyActor.reset {PState Key Params Obs QVals : Type}
    (fns : ActorFns PState Key Params Obs QVals)
    (s : ActorState PState Key Params) : ActorState PState Key Params :=
  { s with pstate := fns.preprocessorReset s.pstate, action := none }

/-- Run of EpsilonGreedyActor.step over a whole timestep sequence,
collecting the returned actions. -/
def EpsilonGreedyActor.run {PState Key Params Obs QVals : Type}
    (fns : ActorFns PState Key Params Obs QVals) (exploration_epsilon : ℚ) :
    ActorState PState Key Params → List (TimeStep Obs) →
      ActorState PState Key Params × List (Option ℤ)
  | s, [] => (s, [])
  | s, ts :: rest =>
    let (s2, a) := EpsilonGreedyActor.step fns exploration_epsilon s ts
    let (s3, rest_actions) := EpsilonGreedyActor.run fns exploration_epsilon s2 rest
    (s3, a :: rest_actions)

/-- Environment capability consumed by run_loop: reset yields the initial
timestep, step advances the environment state by the given action. -/
structure Env (EState Obs : Type) where
  reset : EState → EState × TimeStep Obs
  step : EState → ℤ → EState × TimeStep Obs

/-- Agent capability consumed by run_loop: reset clears episodic state, step
selects an action given a timestep. -/
structure Agent (AState Obs : Type) where
  reset : AState → AState
  step : AState → TimeStep Obs → AState × ℤ

/-- The _replace(step_type=LAST) operation used by run_loop to truncate. -/
def forceLast {Obs : Type} (ts : TimeStep Obs) : TimeStep Obs :=
  { ts with step_type := StepType.LAST }

/-- Inner while-loop of run_loop for one episode: yield (timestep, action),
advance the environment, force the step type to LAST once the per-episode
counter reaches a positive max_steps_per_episode, and on a LAST timestep
take one extra agent step, yield (timestep, absent) and stop. The explicit
fuel bounds the otherwise unbounded generator; the C3 theorem shows fuel =
max_steps_per_episode suffices when that bound is positive. -/
def run_loop_episode_aux {EState AState Obs : Type} (env : Env EState Obs)
    (agent : Agent AState Obs) (max_steps_per_episode : ℕ) :
    ℕ → ℕ → EState → AState → TimeStep Obs →
      List (Option (TimeStep Obs) × Option ℤ) × EState × AState
  | 0, _, ens, ags, _ => ([], ens, ags)
  | fuel + 1, t, ens, ags, ts =>
    let asa := agent.step ags ts
    let eta := env.step ens asa.2
    let ts2 :=
      if 0 < max_steps_per_episode ∧ max_steps_per_episode ≤ t + 1 then
        forceLast eta.2
      else
        eta.2
    if ts2.last then
      ([(some ts, some asa.2), (some ts2, none)], eta.1, (agent.step asa.1 ts2).1)
    else
      let r := run_loop_episode_aux env agent max_steps_per_episode fuel (t + 1)
        eta.1 asa.1 ts2
      ((some ts, some asa.2) :: r.1, r.2.1, r.2.2)

/-- One episode of run_loop, yield_before_reset disabled: reset the agent
and the environment, then run the inner loop from t = 0 on the initial
timestep. -/
def run_loop_episode {EState AState Obs : Type} (env : Env EState Obs)
    (agent : Agent AState Obs) (max_steps_per_episode fuel : ℕ)
    (ens : EState) (ags : AState) :
    List (Option (TimeStep Obs) × Option ℤ) × EState × AState :=
  let ags1 := agent.reset ags
  let er := env.reset ens
  run_loop_episode_aux env agent max_steps_per_episode fuel 0 er.1 ags1 er.2

/-- Pure replay of the environment from a state and current timestep along a
list of actions, returning the final state and timestep. -/
def envRollout {EState Obs : Type} (env : Env EState Obs) :
    EState → TimeStep Obs → List ℤ → EState × TimeStep Obs
  | ens, ts, [] => (ens, ts)
  | ens, ts, a :: rest =>
    let eta := env.step ens a
    envRollout env eta.1 eta.2 rest

/-- Pure replay of the agent along a list of timesteps, discarding the
actions. -/
def agentRollout {AState Obs : Type} (agent : Agent AState Obs) :
    AState → List (TimeStep Obs) → AState
  | ags, [] => ags
  | ags, ts :: rest => agentRollout agent (agent.step ags ts).1 rest

/-- Statement that one run_loop episode under a positive step bound m yields
exactly m non-terminal (timestep, action) pairs followed by one terminal
pair whose timestep is the m-th environment output with its step type
forced to LAST, on which one extra agent step is taken with its action
discarded. -/
def TruncationSpec {EState AState Obs : Type} (env : Env EState Obs)
    (agent : Agent AState Obs) (m fuel : ℕ) (ens : EState) (ags : AState) :
    Prop :=
  let r := run_loop_episode env agent m fuel ens ags
  let er := env.reset ens
  let tsfin := forceLast (envRollout env er.1 er.2 (r.1.filterMap Prod.snd)).2
  r.1.length = m + 1 ∧
  (∀ i, i < m → ∃ ts a, r.1.get? i = some (some ts, some a)) ∧
  r.1.get? m = some (some tsfin, none) ∧
  tsfin.step_type = StepType.LAST ∧
  r.2.2 = (agent.step
    (agentRollout agent (agent.reset ags) ((r.1.take m).filterMap Prod.fst))
    tsfin).1

/-- Sample environment counting its steps, emitting FIRST on reset and MID
forever after, never LAST. -/
def countEnv : Env ℕ ℕ :=
  { reset := fun _ => (0, TimeStep.mk StepType.FIRST none (some 1) 0)
    step := fun s _ => (s + 1, TimeStep.mk StepType.MID (some 1) (some 1) (s + 1)) }

/-- Sample agent counting its steps and echoing the observation as its
action. -/
def countAgent : Agent ℕ ℕ :=
  { reset := fun _ => 0
    step := fun s ts => (s + 1, (ts.observation : ℤ)) }

/-- Sample MID timestep over natural-number observations. -/
def tsNat (n : ℕ) : TimeStep ℕ := TimeStep.mk StepType.MID (some 1) (some 1) n

/-- Sample actor capabilities whose preprocessing pipeline passes every
timestep through unchanged. -/
def passFns : ActorFns Unit ℕ Unit ℕ ℕ :=
  { preprocessor := fun p ts => (p, some ts)
    preprocessorReset := fun p => p
    split3 := fun k => (k + 1, k + 2, k + 3)
    networkApply := fun _ k o => o + k
    egreedySample := fun k q _ => (q : ℤ) + (k : ℤ) }

/-- Sample actor capabilities whose preprocessing pipeline suppresses every
output. -/
def dropFns : ActorFns Unit ℕ Unit ℕ ℕ :=
  { passFns with preprocessor := fun p _ => (p, none) }

/-- Sample freshly constructed actor state with key 0 and no stored
action. -/
def actor0 : ActorState Unit ℕ Unit := ActorState.mk () 0 none ()

/-- Cell of the CSV file: a string (header names and the empty rest value)
or a numeric record value. -/
inductive CsvCell
  | str (s : String)
  | num (q : ℚ)
deriving DecidableEq, Repr

/-- State of a CsvWriter over an initially empty append-mode file: the
DictWriter's fieldnames (absent until the first write), the header flag and
the rows appended so far. -/
structure CsvWriterState where
  fieldnames : Option (List String)
  header_written : Bool
  rows : List (List CsvCell)
deriving DecidableEq, Repr

/-- CsvWriter.__init__ on a fresh file: no DictWriter yet, header not yet
written, no rows. -/
def CsvWriter.init : CsvWriterState :=
  { fieldnames := none, header_written := false, rows := [] }

/-- CsvWriter.write(values): on the first call create the DictWriter with
fieldnames = the record's keys; write the header once if not yet written;
then DictWriter.writerow with its default extrasaction of raise and default
restval of the empty string: keys outside fieldnames raise a ValueError,
and each missing fieldname's cell is filled with the empty rest value. -/
def CsvWriter.write (values : List (String × ℚ)) (s : CsvWriterState) :
    Except String CsvWriterState :=
  let fns := s.fieldnames.getD (values.map Prod.fst)
  let s := { s with fieldnames := some fns }
  let s :=
    if s.header_written then s
    else { s with rows := s.rows ++ [fns.map CsvCell.str], header_written := true }
  let wrong_fields := (values.map Prod.fst).filter (fun k => decide (k ∉ fns))
  if wrong_fields ≠ [] then
    Except.error "dict contains fields not in fieldnames"
  else
    Except.ok { s with rows := s.rows ++
      [fns.map (fun k =>
        match values.lookup k with
        | some v => CsvCell.num v
        | none => CsvCell.str "")] }

/-- Sample writer state whose column set was fixed to a, b with the header
already written. -/
def csvAB : CsvWriterState :=
  { fieldnames := some ["a", "b"], header_written := true, rows := [] }

/-- Reduction of an Except bind on a success value. -/
theorem exceptOkBind {ε α β : Type} (a : α) (f : α → Except ε β) :
    (Except.ok a : Except ε α) >>= f = f a := rfl

/-- Reduction of an Except bind on an error value. -/
theorem exceptErrorBind {ε α β : Type} (e : ε) (f : α → Except ε β) :
    (Except.error e : Except ε α) >>= f = Except.error e := rfl

/-- Reduction of Except.map on a success value. -/
theorem exceptMapOk {ε α β : Type} (a : α) (f : α → β) :
    (Except.ok a : Except ε α).map f = Except.ok (f a) := rfl

/-- Reduction of Except.map on an error value. -/
theorem exceptMapError {ε α β : Type} (e : ε) (f : α → β) :
    (Except.error e : Except ε α).map f = Except.error e := rfl

/-- Reduction of Except.bind on a success value. -/
theorem exceptOkBindFn {ε α β : Type} (a : α) (f : α → Except ε β) :
    (Except.ok a : Except ε α).bind f = f a := rfl

/-- C4: an episode tracker reset and fed FIRST(reward absent), MID(1), MID(2),
LAST(3) reports num_episodes = 1, mean_episode_return = 6, episode_return = 6,
num_steps_since_reset = 4 and current_episode_step = 0 from get(). -/
theorem episodeTracker_single_episode :
    (EpisodeTracker.stepAll [tsFIRST, tsMID 1, tsMID 2, tsLAST 3]
        EpisodeTracker.reset).bind EpisodeTracker.get
      = Except.ok
          { mean_episode_return := some 6
            current_episode_return := some 0
            episode_return := some 6
            num_episodes := 1
            num_steps_over_episodes := 4
            current_episode_step := 0
            num_steps_since_reset := 4 } := by
  simp [EpisodeTracker.stepAll, List.foldlM, EpisodeTracker.step,
    EpisodeTracker.reset, EpisodeTracker.get, pySum, tsFIRST, tsMID, tsLAST,
    TimeStep.first, TimeStep.last, exceptOkBind, exceptErrorBind, exceptMapOk,
    exceptMapError, exceptOkBindFn]
  norm_num

/-- C5: get() reports episode_return equal to mean_episode_return when at
least one episode has completed and equal to current_episode_return
otherwise; in particular after FIRST, MID(5) it reports num_episodes = 0,
current_episode_return = 5 and episode_return = 5. -/
theorem episodeTracker_headline_return :
    (∀ (s : EpisodeTrackerState) (st : EpisodeStats),
        EpisodeTracker.get s = Except.ok st →
        (st.num_episodes ≠ 0 → st.episode_return = st.mean_episode_return) ∧
        (st.num_episodes = 0 → st.episode_return = st.current_episode_return)) ∧
    (EpisodeTracker.stepAll [tsFIRST, tsMID 5]
        EpisodeTracker.reset).bind EpisodeTracker.get
      = Except.ok
          { mean_episode_return := none
            current_episode_return := some 5
            episode_return := some 5
            num_episodes := 0
            num_steps_over_episodes := 0
            current_episode_step := 2
            num_steps_since_reset := 2 } := by
  constructor
  · intro s st h
    unfold EpisodeTracker.get at h
    by_cases hne : s.episode_returns ≠ []
    · rw [if_pos hne] at h
      cases hp : pySum s.current_episode_rewards with
      | error e =>
        rw [hp, exceptErrorBind] at h
        exact absurd h (by simp)
      | ok c =>
        rw [hp, exceptOkBind] at h
        simp only [Except.ok.injEq] at h
        subst h
        refine ⟨fun _ => rfl, fun h0 => ?_⟩
        simp only at h0
        exact absurd (List.length_eq_zero.mp h0) hne
    · rw [if_neg hne] at h
      by_cases hn : s.num_steps_since_reset > 0
      · rw [if_pos hn] at h
        cases hp : pySum s.current_episode_rewards with
        | error e =>
          rw [hp, exceptErrorBind] at h
          exact absurd h (by simp)
        | ok c =>
          rw [hp, exceptOkBind] at h
          simp only [Except.ok.injEq] at h
          subst h
          have he : s.episode_returns = [] := not_not.mp hne
          refine ⟨fun h0 => absurd ?_ h0, fun _ => rfl⟩
          simp [he]
      · rw [if_neg hn] at h
        simp only [Except.ok.injEq] at h
        subst h
        have he : s.episode_returns = [] := not_not.mp hne
        refine ⟨fun h0 => absurd ?_ h0, fun _ => rfl⟩
        simp [he]
  · simp [EpisodeTracker.stepAll, List.foldlM, EpisodeTracker.step,
      EpisodeTracker.reset, EpisodeTracker.get, pySum, tsFIRST, tsMID,
      TimeStep.first, TimeStep.last, exceptOkBind, exceptErrorBind, exceptMapOk,
      exceptMapError, exceptOkBindFn]

/-- Witness for C5 at the freshly reset tracker state. -/
theorem episodeTracker_headline_return_witness :
    EpisodeTracker.get EpisodeTracker.reset = Except.ok resetStats ∧
    ((resetStats.num_episodes ≠ 0 →
        resetStats.episode_return = resetStats.mean_episode_return) ∧
     (resetStats.num_episodes = 0 →
        resetStats.episode_return = resetStats.current_episode_return)) :=
  ⟨rfl, episodeTracker_headline_return.1 EpisodeTracker.reset resetStats rfl⟩

/-- C6: a step call with a FIRST timestep fails exactly when the in-progress
reward list is non-empty or the in-progress step count is non-zero; in
particular two consecutive FIRST timesteps after reset fail on the second. -/
theorem episodeTracker_first_invariant :
    (∀ (Obs : Type) (ts : TimeStep Obs) (s : EpisodeTrackerState),
        ts.step_type = StepType.FIRST →
        (isError (EpisodeTracker.step ts s) = true ↔
          (s.current_episode_rewards ≠ [] ∨ s.current_episode_step ≠ 0))) ∧
    isError
      ((EpisodeTracker.step tsFIRST EpisodeTracker.reset).bind
        (fun s => EpisodeTracker.step tsFIRST s)) = true := by
  constructor
  · intro Obs ts s hfirst
    have hf : ts.first = true := by unfold TimeStep.first; rw [hfirst]
    have hl : ts.last = false := by unfold TimeStep.last; rw [hfirst]
    unfold EpisodeTracker.step
    rw [hf, hl]
    by_cases h1 : s.current_episode_rewards = []
    · by_cases h2 : s.current_episode_step = 0
      · simp [h1, h2, isError, exceptOkBind, exceptErrorBind]
      · simp [h1, h2, isError, exceptOkBind, exceptErrorBind]
    · simp [h1, isError, exceptOkBind, exceptErrorBind]
  · simp [EpisodeTracker.step, EpisodeTracker.reset, tsFIRST,
      TimeStep.first, TimeStep.last, exceptOkBind, exceptErrorBind,
      exceptOkBindFn, isError]

/-- Witness for C6 at a concrete FIRST timestep and the reset state. -/
theorem episodeTracker_first_invariant_witness :
    tsFIRST.step_type = StepType.FIRST ∧
    (isError (EpisodeTracker.step tsFIRST EpisodeTracker.reset) = true ↔
      (EpisodeTracker.reset.current_episode_rewards ≠ [] ∨
        EpisodeTracker.reset.current_episode_step ≠ 0)) :=
  ⟨rfl, episodeTracker_first_invariant.1 Unit tsFIRST EpisodeTracker.reset rfl⟩

/-- Unfolding of the generate_statistics loop into one independent pass per
tracker over the non-absent timesteps of the sequence. -/
theorem genLoop_eq {Obs : Type} (pairs : List (Option (TimeStep Obs) × Option ℤ))
    (srt : StepRateTrackerState) (et : EpisodeTrackerState) :
    genLoop pairs srt et =
      (EpisodeTracker.stepAll (pairs.filterMap Prod.fst) et).map
        (fun et2 => (StepRateTracker.stepAll (pairs.filterMap Prod.fst) srt, et2)) := by
  induction pairs generalizing srt et with
  | nil => rfl
  | cons p rest ih =>
    obtain ⟨ots, a⟩ := p
    cases ots with
    | none =>
      simpa [genLoop, List.filterMap_cons] using ih srt et
    | some ts =>
      simp only [genLoop, List.filterMap_cons]
      cases hst : EpisodeTracker.step ts et with
      | error e =>
        simp [hst, EpisodeTracker.stepAll, List.foldlM, exceptErrorBind,
          exceptMapError]
      | ok et2 =>
        simp [hst, EpisodeTracker.stepAll, List.foldlM, exceptOkBind, ih,
          StepRateTracker.stepAll, List.foldl]

/-- Lookup in an appended association list finds every key the front list
resolves. -/
theorem lookupAppendOfSome {α β : Type} [BEq α] (a b : List (α × β)) (k : α)
    (v : β) (h : a.lookup k = some v) : (a ++ b).lookup k = some v := by
  induction a with
  | nil => simp [List.lookup] at h
  | cons kv rest ih =>
    obtain ⟨k1, v1⟩ := kv
    cases hbeq : k == k1 with
    | true =>
      simp only [List.lookup, hbeq] at h
      simp only [List.cons_append, List.lookup, hbeq]
      exact h
    | false =>
      simp only [List.lookup, hbeq] at h
      simp only [List.cons_append, List.lookup, hbeq]
      exact ih h

/-- Merging of the two snapshot dictionaries is plain concatenation: their
key sets are disjoint, so no value of either tracker is overridden. -/
theorem pyDictMerge_stats_disjoint (e : EpisodeStats) (s : StepRateStats) :
    pyDictMerge (episodeStatsDict e) (stepRateStatsDict s) =
      episodeStatsDict e ++ stepRateStatsDict s := by
  simp [pyDictMerge, episodeStatsDict, stepRateStatsDict, List.lookup,
    List.filter]

/-- Statement that a statistics dictionary d is the union of the snapshots
of a fresh episode tracker and a fresh step-rate tracker, each fed exactly
the non-absent timesteps of the sequence, with episode-tracker entries
first and every episode-tracker entry resolving on lookup. -/
def GenStatsSpec (Obs : Type) (pairs : List (Option (TimeStep Obs) × Option ℤ))
    (t0 t1 : ℚ) (d : List (String × Option ℚ)) : Prop :=
  ∃ et stats,
    EpisodeTracker.stepAll (pairs.filterMap Prod.fst) EpisodeTracker.reset
      = Except.ok et ∧
    EpisodeTracker.get et = Except.ok stats ∧
    d = episodeStatsDict stats ++
          stepRateStatsDict (StepRateTracker.get t1
            (StepRateTracker.stepAll (pairs.filterMap Prod.fst)
              (StepRateTracker.reset t0))) ∧
    (∀ k v, (episodeStatsDict stats).lookup k = some v → d.lookup k = some v)

/-- C2: when generate_statistics succeeds on a finite pair sequence, its
result is the union of the snapshot dictionaries of a fresh episode tracker
and a fresh step-rate tracker each fed exactly the non-absent timesteps of
the sequence, with episode-tracker entries taking precedence on lookup. -/
theorem generate_statistics_spec :
    ∀ (Obs : Type) (pairs : List (Option (TimeStep Obs) × Option ℤ))
      (t0 t1 : ℚ) (d : List (String × Option ℚ)),
      generate_statistics pairs t0 t1 = Except.ok d →
      GenStatsSpec Obs pairs t0 t1 d := by
  intro Obs pairs t0 t1 d h
  unfold generate_statistics at h
  rw [genLoop_eq] at h
  cases hsa : EpisodeTracker.stepAll (pairs.filterMap Prod.fst)
      EpisodeTracker.reset with
  | error e =>
    rw [hsa, exceptMapError, exceptErrorBind] at h
    exact absurd h (by simp)
  | ok et =>
    rw [hsa, exceptMapOk, exceptOkBind] at h
    dsimp only at h
    cases hg : EpisodeTracker.get et with
    | error e =>
      rw [hg, exceptErrorBind] at h
      exact absurd h (by simp)
    | ok stats =>
      rw [hg, exceptOkBind] at h
      simp only [Except.ok.injEq] at h
      subst h
      refine ⟨et, stats, hsa, hg, pyDictMerge_stats_disjoint stats _, ?_⟩
      intro k v hk
      rw [pyDictMerge_stats_disjoint]
      exact lookupAppendOfSome _ _ _ _ hk

/-- Witness for C2 at a three-pair sequence holding one sentinel pair and
one complete episode, with the clock read at 0 and 2. -/
theorem generate_statistics_spec_witness :
    generate_statistics
        [(none, none), (some tsFIRST, some 0), (some (tsLAST 2), some 1)] 0 2
      = Except.ok
          [("mean_episode_return", some 2), ("current_episode_return", some 0),
           ("episode_return", some 2), ("num_episodes", some 1),
           ("num_steps_over_episodes", some 2), ("current_episode_step", some 0),
           ("num_steps_since_reset", some 2), ("step_rate", some 1),
           ("num_steps", some 2), ("duration", some 2)] ∧
    GenStatsSpec Unit [(none, none), (some tsFIRST, some 0), (some (tsLAST 2), some 1)] 0 2
        [("mean_episode_return", some 2), ("current_episode_return", some 0),
         ("episode_return", some 2), ("num_episodes", some 1),
         ("num_steps_over_episodes", some 2), ("current_episode_step", some 0),
         ("num_steps_since_reset", some 2), ("step_rate", some 1),
         ("num_steps", some 2), ("duration", some 2)] := by
  have h : generate_statistics
      [(none, none), (some tsFIRST, some 0), (some (tsLAST 2), some 1)] (0 : ℚ) 2
      = Except.ok
          [("mean_episode_return", some 2), ("current_episode_return", some 0),
           ("episode_return", some 2), ("num_episodes", some 1),
           ("num_steps_over_episodes", some 2), ("current_episode_step", some 0),
           ("num_steps_since_reset", some 2), ("step_rate", some 1),
           ("num_steps", some 2), ("duration", some 2)] := by
    simp [generate_statistics, genLoop, StepRateTracker.reset,
      StepRateTracker.step, StepRateTracker.get, EpisodeTracker.reset,
      EpisodeTracker.step, EpisodeTracker.get, pySum, tsFIRST, tsLAST,
      TimeStep.first, TimeStep.last, exceptOkBind, exceptErrorBind,
      exceptMapOk, exceptMapError, exceptOkBindFn, pyDictMerge,
      episodeStatsDict, stepRateStatsDict, List.lookup, List.filter]
  exact ⟨h, generate_statistics_spec Unit _ 0 2 _ h⟩

/-- C7: for a linear schedule with positive decay_steps, value(t) follows the
clamped interpolation formula, returns begin_value for t at or before
begin_t and end_value for t at or past begin_t + decay_steps; concretely,
the schedule from 1 to 0 over 10 steps takes values 1, 1/2, 0, 1, 0 at
t = 0, 5, 10, -5, 100. -/
theorem linearSchedule_value_spec :
    (∀ (sched : LinearSchedule) (t : ℤ),
        0 < sched.decay_steps → ValueSpecAt sched t) ∧
    LinearSchedule.init 1 0 0 none (some 10) = Except.ok sched10 ∧
    sched10.value 0 = 1 ∧ sched10.value 5 = 1/2 ∧ sched10.value 10 = 0 ∧
    sched10.value (-5) = 1 ∧ sched10.value 100 = 0 := by
  refine ⟨?_, rfl, ?_, ?_, ?_, ?_, ?_⟩
  · intro sched t hd
    refine ⟨rfl, ?_, ?_⟩
    · intro hle
      have h1 : max (t - sched.begin_t) 0 = 0 := max_eq_right (by omega)
      have h2 : min (0 : ℤ) sched.decay_steps = 0 := min_eq_left (by omega)
      simp only [LinearSchedule.value, h1, h2]
      push_cast
      ring
    · intro hge
      have h1 : max (t - sched.begin_t) 0 = t - sched.begin_t :=
        max_eq_left (by omega)
      have h2 : min (t - sched.begin_t) sched.decay_steps = sched.decay_steps :=
        min_eq_right (by omega)
      have hne : (sched.decay_steps : ℚ) ≠ 0 := by
        exact_mod_cast Int.ne_of_gt hd
      simp only [LinearSchedule.value, h1, h2]
      field_simp
  · norm_num [LinearSchedule.value, sched10]
  · norm_num [LinearSchedule.value, sched10]
  · norm_num [LinearSchedule.value, sched10]
  · norm_num [LinearSchedule.value, sched10]
  · norm_num [LinearSchedule.value, sched10]

/-- Witness for C7 at the sample schedule and t = -2. -/
theorem linearSchedule_value_spec_witness :
    (0 : ℤ) < sched10.decay_steps ∧ ValueSpecAt sched10 (-2) :=
  ⟨by norm_num [sched10], linearSchedule_value_spec.1 sched10 (-2) (by norm_num [sched10])⟩

/-- C8: constructing a linear schedule with both end_t and decay_steps or
with neither fails with a ValueError; with exactly one of them it succeeds,
storing decay_steps when given and end_t - begin_t otherwise. -/
theorem linearSchedule_init_spec :
    ∀ (bv ev : ℚ) (bt e d : ℤ),
      isError (LinearSchedule.init bv ev bt none none) = true ∧
      isError (LinearSchedule.init bv ev bt (some e) (some d)) = true ∧
      LinearSchedule.init bv ev bt (some e) none =
        Except.ok (LinearSchedule.mk bv ev bt (e - bt)) ∧
      LinearSchedule.init bv ev bt none (some d) =
        Except.ok (LinearSchedule.mk bv ev bt d) := by
  intro bv ev bt e d
  exact ⟨rfl, rfl, rfl, rfl⟩

/-- Timesteps whose step type is not LAST report last() = false. -/
theorem last_eq_false_of_ne {Obs : Type} (ts : TimeStep Obs)
    (h : ts.step_type ≠ StepType.LAST) : ts.last = false := by
  cases hst : ts.step_type <;> simp [TimeStep.last, hst] <;> exact h hst

/-- Characterization of the inner run_loop loop under a positive step bound
against an environment that never emits LAST: with fuel + t = m it yields
fuel non-terminal pairs, then the terminal pair carrying the replayed final
environment output forced to LAST, and takes one extra agent step on it. -/
theorem run_loop_aux_spec {EState AState Obs : Type} (env : Env EState Obs)
    (agent : Agent AState Obs) (m : ℕ)
    (hEnv : ∀ ens a, ((env.step ens a).2).step_type ≠ StepType.LAST) :
    ∀ (fuel : ℕ), 0 < fuel → ∀ (t : ℕ), fuel + t = m →
      ∀ (ens : EState) (ags : AState) (ts : TimeStep Obs),
      ((run_loop_episode_aux env agent m fuel t ens ags ts).1.length = fuel + 1) ∧
      (∀ i, i < fuel → ∃ ts' a',
        (run_loop_episode_aux env agent m fuel t ens ags ts).1.get? i
          = some (some ts', some a')) ∧
      ((run_loop_episode_aux env agent m fuel t ens ags ts).1.get? fuel
        = some (some (forceLast (envRollout env ens ts
            ((run_loop_episode_aux env agent m fuel t ens ags ts).1.filterMap
              Prod.snd)).2), none)) ∧
      ((run_loop_episode_aux env agent m fuel t ens ags ts).2.2
        = (agent.step (agentRollout agent ags
            (((run_loop_episode_aux env agent m fuel t ens ags ts).1.take
              fuel).filterMap Prod.fst))
            (forceLast (envRollout env ens ts
              ((run_loop_episode_aux env agent m fuel t ens ags ts).1.filterMap
                Prod.snd)).2)).1) := by
  intro fuel
  induction fuel with
  | zero => intro h0; exact absurd h0 (lt_irrefl 0)
  | succ n ih =>
    intro _ t hsum ens ags ts
    by_cases hn : n = 0
    · subst hn
      have hc : 0 < m ∧ m ≤ t + 1 := by omega
      have hred : run_loop_episode_aux env agent m 1 t ens ags ts
          = ([(some ts, some (agent.step ags ts).2),
              (some (forceLast (env.step ens (agent.step ags ts).2).2), none)],
             (env.step ens (agent.step ags ts).2).1,
             (agent.step (agent.step ags ts).1
               (forceLast (env.step ens (agent.step ags ts).2).2)).1) := by
        simp only [run_loop_episode_aux]
        rw [if_pos hc]
        simp [forceLast, TimeStep.last]
      rw [hred]
      refine ⟨rfl, ?_, ?_, ?_⟩
      · intro i hi
        have hi0 : i = 0 := by omega
        subst hi0
        exact ⟨ts, (agent.step ags ts).2, rfl⟩
      · simp [envRollout, List.filterMap]
      · simp [envRollout, agentRollout, List.filterMap, List.take]
    · have hnpos : 0 < n := Nat.pos_of_ne_zero hn
      have hc : ¬(0 < m ∧ m ≤ t + 1) := by omega
      have hlast : ((env.step ens (agent.step ags ts).2).2).last = false :=
        last_eq_false_of_ne _ (hEnv ens (agent.step ags ts).2)
      have hred : run_loop_episode_aux env agent m (n + 1) t ens ags ts
          = ((some ts, some (agent.step ags ts).2) ::
              (run_loop_episode_aux env agent m n (t + 1)
                (env.step ens (agent.step ags ts).2).1 (agent.step ags ts).1
                (env.step ens (agent.step ags ts).2).2).1,
             (run_loop_episode_aux env agent m n (t + 1)
                (env.step ens (agent.step ags ts).2).1 (agent.step ags ts).1
                (env.step ens (agent.step ags ts).2).2).2.1,
             (run_loop_episode_aux env agent m n (t + 1)
                (env.step ens (agent.step ags ts).2).1 (agent.step ags ts).1
                (env.step ens (agent.step ags ts).2).2).2.2) := by
        simp only [run_loop_episode_aux]
        rw [if_neg hc]
        simp [hlast]
      obtain ⟨ihlen, ihmid, ihfin, ihag⟩ := ih hnpos (t + 1) (by omega)
        (env.step ens (agent.step ags ts).2).1 (agent.step ags ts).1
        (env.step ens (agent.step ags ts).2).2
      rw [hred]
      refine ⟨by simp [ihlen], ?_, ?_, ?_⟩
      · intro i hi
        cases i with
        | zero => exact ⟨ts, (agent.step ags ts).2, rfl⟩
        | succ j =>
          obtain ⟨ts', a', hj⟩ := ihmid j (by omega)
          exact ⟨ts', a', by simpa using hj⟩
      · simpa [envRollout, List.filterMap] using ihfin
      · simpa [envRollout, agentRollout, List.filterMap, List.take] using ihag

/-- C3: for run_loop with a positive max_steps_per_episode m against an
environment that never emits LAST on its own, an episode yields exactly m
non-terminal pairs, then one terminal pair whose timestep is the m-th
environment output with its step type forced to LAST and whose action slot
is absent, one extra agent step being taken on that forced timestep; the
episode ends there. -/
theorem run_loop_truncation :
    ∀ (EState AState Obs : Type) (env : Env EState Obs)
      (agent : Agent AState Obs) (m : ℕ) (ens : EState) (ags : AState),
      0 < m → (∀ es a, ((env.step es a).2).step_type ≠ StepType.LAST) →
      TruncationSpec env agent m m ens ags := by
  intro EState AState Obs env agent m ens ags hm hEnv
  obtain ⟨hlen, hmid, hfin, hag⟩ := run_loop_aux_spec env agent m hEnv m hm 0
    (by omega) (env.reset ens).1 (agent.reset ags) (env.reset ens).2
  exact ⟨hlen, hmid, hfin, rfl, hag⟩

/-- Witness for C3 at the counting environment and agent with bound 3. -/
theorem run_loop_truncation_witness :
    ((0 < 3 ∧
        ∀ (es : ℕ) (a : ℤ), ((countEnv.step es a).2).step_type ≠ StepType.LAST)) ∧
    TruncationSpec countEnv countAgent 3 3 0 0 :=
  ⟨⟨by omega, fun es a => by simp [countEnv]⟩,
    run_loop_truncation ℕ ℕ ℕ countEnv countAgent 3 0 0 (by omega)
      (fun es a => by simp [countEnv])⟩

/-- C9: epsilon-greedy action selection is a deterministic function of the
random key, network parameters, exploration epsilon, preprocessing state
and stored action: two actors agreeing on these, fed the same timestep
sequence with the same external capabilities, produce the same action
sequence and end in the same state. -/
theorem epsilonGreedyActor_deterministic :
    ∀ (PState Key Params Obs QVals : Type)
      (fns : ActorFns PState Key Params Obs QVals) (eps1 eps2 : ℚ)
      (s1 s2 : ActorState PState Key Params) (tss : List (TimeStep Obs)),
      eps1 = eps2 → s1.pstate = s2.pstate → s1.rng_key = s2.rng_key →
      s1.action = s2.action → s1.network_params = s2.network_params →
      (EpsilonGreedyActor.run fns eps1 s1 tss).2 =
          (EpsilonGreedyActor.run fns eps2 s2 tss).2 ∧
        (EpsilonGreedyActor.run fns eps1 s1 tss).1 =
          (EpsilonGreedyActor.run fns eps2 s2 tss).1 := by
  intro PState Key Params Obs QVals fns eps1 eps2 s1 s2 tss he hp hk ha hn
  obtain ⟨p1, k1, a1, n1⟩ := s1
  obtain ⟨p2, k2, a2, n2⟩ := s2
  simp only at hp hk ha hn
  subst he hp hk ha hn
  exact ⟨rfl, rfl⟩

/-- Witness for C9 at two identically constructed greedy actors run over two
timesteps. -/
theorem epsilonGreedyActor_deterministic_witness :
    ((0 : ℚ) = 0 ∧ actor0.pstate = actor0.pstate ∧
      actor0.rng_key = actor0.rng_key ∧ actor0.action = actor0.action ∧
      actor0.network_params = actor0.network_params) ∧
    ((EpsilonGreedyActor.run passFns 0 actor0 [tsNat 4, tsNat 9]).2 =
        (EpsilonGreedyActor.run passFns 0 actor0 [tsNat 4, tsNat 9]).2 ∧
      (EpsilonGreedyActor.run passFns 0 actor0 [tsNat 4, tsNat 9]).1 =
        (EpsilonGreedyActor.run passFns 0 actor0 [tsNat 4, tsNat 9]).1) :=
  ⟨⟨rfl, rfl, rfl, rfl, rfl⟩,
    epsilonGreedyActor_deterministic Unit ℕ Unit ℕ ℕ passFns 0 0 actor0 actor0
      [tsNat 4, tsNat 9] rfl rfl rfl rfl rfl⟩

/-- C10: when the preprocessing pipeline suppresses its output, step returns
the stored action and leaves the random key, stored action and network
parameters unchanged; the stored action is absent right after reset, so a
suppressed step that follows a reset returns an absent action. -/
theorem epsilonGreedyActor_repeat_action :
    ∀ (PState Key Params Obs QVals : Type)
      (fns : ActorFns PState Key Params Obs QVals) (eps : ℚ)
      (s : ActorState PState Key Params) (ts : TimeStep Obs) (ps : PState),
      fns.preprocessor s.pstate ts = (ps, none) →
      EpsilonGreedyActor.step fns eps s ts = ({ s with pstate := ps }, s.action) ∧
      (EpsilonGreedyActor.step fns eps s ts).1.rng_key = s.rng_key ∧
      (EpsilonGreedyActor.step fns eps s ts).1.action = s.action ∧
      (EpsilonGreedyActor.step fns eps s ts).1.network_params = s.network_params ∧
      (EpsilonGreedyActor.reset fns s).action = none ∧
      (s.action = none → (EpsilonGreedyActor.step fns eps s ts).2 = none) := by
  intro PState Key Params Obs QVals fns eps s ts ps h
  have hstep : EpsilonGreedyActor.step fns eps s ts =
      ({ s with pstate := ps }, s.action) := by
    unfold EpsilonGreedyActor.step
    rw [h]
  refine ⟨hstep, ?_, ?_, ?_, rfl, ?_⟩
  · rw [hstep]
  · rw [hstep]
  · rw [hstep]
  · intro ha
    rw [hstep, ha]

/-- Witness for C10 at an actor whose pipeline drops every timestep. -/
theorem epsilonGreedyActor_repeat_action_witness :
    dropFns.preprocessor actor0.pstate (tsNat 4) = ((), none) ∧
    (EpsilonGreedyActor.step dropFns 0 actor0 (tsNat 4) =
        ({ actor0 with pstate := () }, actor0.action) ∧
      (EpsilonGreedyActor.step dropFns 0 actor0 (tsNat 4)).1.rng_key =
        actor0.rng_key ∧
      (EpsilonGreedyActor.step dropFns 0 actor0 (tsNat 4)).1.action =
        actor0.action ∧
      (EpsilonGreedyActor.step dropFns 0 actor0 (tsNat 4)).1.network_params =
        actor0.network_params ∧
      (EpsilonGreedyActor.reset dropFns actor0).action = none ∧
      (actor0.action = none →
        (EpsilonGreedyActor.step dropFns 0 actor0 (tsNat 4)).2 = none)) :=
  ⟨rfl, epsilonGreedyActor_repeat_action Unit ℕ Unit ℕ ℕ dropFns 0 actor0
    (tsNat 4) () rfl⟩

/-- Counterexample to C1 as stated: after a first write of keys a, b, a
subsequent write of the record a = 5, whose key set differs by missing b,
does not fail; it appends a data row in which the missing column is
silently filled with the empty rest value. -/
theorem csvWriter_missing_keys_not_rejected :
    isError ((CsvWriter.write [("a", 1), ("b", 2)] CsvWriter.init).bind
        (fun s => CsvWriter.write [("a", 5)] s)) = false ∧
    (CsvWriter.write [("a", 1), ("b", 2)] CsvWriter.init).bind
        (fun s => CsvWriter.write [("a", 5)] s)
      = Except.ok
          (CsvWriterState.mk (some ["a", "b"]) true
            [[CsvCell.str "a", CsvCell.str "b"],
             [CsvCell.num 1, CsvCell.num 2],
             [CsvCell.num 5, CsvCell.str ""]]) := by
  constructor
  · simp [CsvWriter.write, CsvWriter.init, isError, exceptOkBindFn,
      List.lookup, List.filter]
  · simp [CsvWriter.write, CsvWriter.init, exceptOkBindFn,
      List.lookup, List.filter]

/-- C1 amended: after the first write fixes the column key set, a subsequent
write fails with a malformed-row ValueError exactly when the record holds a
key outside that set; a record with only missing keys succeeds, its missing
columns silently filled with the empty rest value; a first write on a fresh
writer fixes the fieldnames to its own key list and succeeds. -/
theorem csvWriter_write_spec :
    (∀ (values : List (String × ℚ)) (s : CsvWriterState) (fns : List String),
        s.fieldnames = some fns →
        (isError (CsvWriter.write values s) = true ↔
          ∃ k ∈ values.map Prod.fst, k ∉ fns)) ∧
    (∀ (values : List (String × ℚ)) (s : CsvWriterState),
        s.fieldnames = none →
        ∃ s2, CsvWriter.write values s = Except.ok s2 ∧
          s2.fieldnames = some (values.map Prod.fst)) := by
  constructor
  · intro values s fns h
    unfold CsvWriter.write
    rw [h]
    by_cases hw : (values.map Prod.fst).filter (fun k => decide (k ∉ fns)) = []
    · rw [List.filter_eq_nil_iff] at hw
      simp only [Option.getD]
      rw [if_neg (by
        simp only [ne_eq, not_not]
        rw [List.filter_eq_nil_iff]
        exact hw)]
      simp only [isError, Bool.false_eq_true, false_iff]
      rintro ⟨k, hk, hnk⟩
      exact absurd (by simpa using hw k hk) hnk
    · simp only [Option.getD]
      rw [if_pos (by simpa using hw)]
      simp only [isError, true_iff]
      obtain ⟨k, hkmem⟩ := List.exists_mem_of_ne_nil _ hw
      rw [List.mem_filter] at hkmem
      exact ⟨k, hkmem.1, by simpa using hkmem.2⟩
  · intro values s h
    unfold CsvWriter.write
    rw [h]
    simp only [Option.getD]
    have hw : (values.map Prod.fst).filter
        (fun k => decide (k ∉ values.map Prod.fst)) = [] :=
      List.filter_eq_nil_iff.mpr (by intro a ha; simp [ha])
    rw [if_neg (by simp [hw])]
    cases hb : s.header_written <;> simp [hb] <;> exact ⟨_, rfl, rfl⟩

/-- Witness for the amended C1 at a writer with fixed columns a, b and a
record carrying the extra key c. -/
theorem csvWriter_write_spec_witness :
    csvAB.fieldnames = some ["a", "b"] ∧
    (isError (CsvWriter.write [("c", 7)] csvAB) = true ↔
      ∃ k ∈ [("c", (7 : ℚ))].map Prod.fst, k ∉ ["a", "b"]) :=
  ⟨rfl, csvWriter_write_spec.1 [("c", 7)] csvAB ["a", "b"] rfl⟩

end DqnZoo
